import Mathlib

/-! Verification development for the go-acr OCI layer puller.

This file gives a shallow embedding of the function `getImage` from
`src/cmd/root.go` (package `cmd`) and settles the specification's claims
about it.  The external collaborators (the go-containerregistry client,
the filesystem, the zap logger) are modelled as oracles: structures whose
fields hold the result each external call would return on this run.
`getImage` itself is translated statement by statement into a pure Lean
function that threads those oracles and records an event trace.

Semantics of the modelled externals, fixed by their documentation:

* `logger.Fatal` (zap) logs the message at fatal level and then calls
  `os.Exit(1)`.  `os.Exit` terminates the process immediately and does
  NOT run deferred functions.  This is the `Outcome.fatalExit` outcome.
* `logger.Error` logs and returns; execution continues.
* A Go runtime panic (index out of range, nil pointer dereference) that
  is never recovered terminates the process; deferred functions on the
  unwound frames do run, but in `getImage` every panic happens before
  the blob stream is opened.  This is the `Outcome.panicked` outcome.
* `remote.Get` returns a nil descriptor pointer together with a non-nil
  error on failure, so dereferencing its result after a failure is a nil
  pointer dereference.
* `name.NewRepository` validates the repository path: path components
  may contain only lowercase letters, digits and the separators
  `.` `_` `-`.  In particular a path containing `@` is rejected.
-/

namespace GoAcr

/-- Events observable from one run of `getImage`: the registry (network)
calls, the filesystem mutations, the closing of the blob stream, and
error-level log lines.  Debug/info log lines carry no information any
claim needs and are omitted. -/
inductive Event where
  | listTags
  | headReq
  | getManifest
  | imageManifest
  | blobFetch
  | mkdirTemp (dir : String)
  | writeFile (path : String) (data : List Nat)
  | blobClose
  | errorLog (msg : String)
deriving DecidableEq, Repr

/-- Network (registry) calls among the events. -/
def Event.isNetwork : Event → Bool
  | .listTags => true
  | .headReq => true
  | .getManifest => true
  | .imageManifest => true
  | .blobFetch => true
  | _ => false

/-- Filesystem mutations among the events. -/
def Event.isFsWrite : Event → Bool
  | .mkdirTemp _ => true
  | .writeFile _ _ => true
  | _ => false

/-- How one run of `getImage` ends.  `fatalExit` is `logger.Fatal`:
zap logs the message and then calls `os.Exit(1)`, terminating the
process without running deferred functions.  `panicked` is an
unrecovered Go runtime panic, which also terminates the process. -/
inductive Outcome where
  | ok (path : String)
  | fatalExit (msg : String)
  | panicked (msg : String)
deriving DecidableEq, Repr

/-- Whether the outcome terminates the process (both `logger.Fatal`,
which calls `os.Exit(1)`, and an unrecovered runtime panic do). -/
def Outcome.terminatesProcess : Outcome → Bool
  | .ok _ => false
  | .fatalExit _ => true
  | .panicked _ => true

/-- One manifest layer as seen through the go-containerregistry API:
its metadata and the results the blob calls would return for it.
`compressedRes` is the result of `layer.Compressed()` (opening the blob
stream), `readAllRes` the result of `io.ReadAll` on that stream. -/
structure Layer where
  mediaType : String
  digestRes : Except String String
  size : Nat
  compressedRes : Except String Unit
  readAllRes : Except String (List Nat)

/-- The result of `remote.Image`: an image whose `Layers()` call yields
`layersRes`. -/
structure RImage where
  layersRes : Except String (List Layer)

/-- Registry oracle: the results the four remote calls made by
`getImage` would return on this run.  `headRes`/`getRes` carry the
digest of the returned descriptor on success. -/
structure Registry where
  listTagsRes : Except String (List String)
  headRes : Except String String
  getRes : Except String String
  imageRes : Except String RImage

/-- Filesystem oracle: the results of `os.MkdirTemp` (the created
directory path on success) and `os.WriteFile`. -/
structure Fs where
  mkdirTempRes : Except String String
  writeFileRes : Except String Unit

/-- The observable result of one run of `getImage`: its outcome, the
event trace, and the `revision` variable (`""` when never assigned,
like the Go zero value). -/
structure RunResult where
  outcome : Outcome
  events : List Event
  revision : String
deriving Repr

/-- Go's `strings.Split` on a one-character separator, on the character
list: splits at every separator occurrence, keeps empty segments, and
always returns at least one segment. -/
def goSplitList (c : Char) : List Char → List (List Char)
  | [] => [[]]
  | a :: rest =>
    if a = c then [] :: goSplitList c rest
    else
      match goSplitList c rest with
      | [] => [[a]]
      | h :: t => (a :: h) :: t

/-- Go's `strings.Split(s, c)` for a one-character separator. -/
def goSplit (s : String) (c : Char) : List String :=
  (goSplitList c s.data).map (fun l => String.mk l)

/-- Whether the input string starts with the `oci://` scheme
(`strings.HasPrefix(ociImage, "oci://")` at root.go:78). -/
def hasOciScheme (s : String) : Bool :=
  s.data.take 6 == "oci://".data

/-- Go's `strings.TrimPrefix(ociImage, "oci://")` (root.go:82): drop the
six scheme bytes when present, otherwise return the string unchanged. -/
def trimOci (s : String) : String :=
  if hasOciScheme s then String.mk (s.data.drop 6) else s

/-- Characters allowed in a repository-path component by
go-containerregistry's `name.NewRepository` validation: lowercase
letters, digits and the separators `.` `_` `-`.  `@` is not allowed. -/
def validRepoPathChar (c : Char) : Bool :=
  c.isLower || c.isDigit || c = '.' || c = '_' || c = '-'

/-- Model of go-containerregistry `name.NewRepository` (root.go:91): the
first `/`-component is the registry host, the rest is the repository
path, whose components must be nonempty and drawn from
`validRepoPathChar`.  (All references in this program's domain carry an
explicit registry host, so the default-registry case is not modelled.) -/
def newRepository (s : String) : Except String Unit :=
  match goSplit s '/' with
  | [] => Except.error "repository must not be empty"
  | _registryHost :: repoComps =>
    if repoComps.isEmpty then
      Except.error ("repositories must have at least one path component: " ++ s)
    else if repoComps.all (fun comp => !comp.data.isEmpty && comp.data.all validRepoPathChar) then
      Except.ok ()
    else
      Except.error ("repository can only contain the characters abcdefghijklmnopqrstuvwxyz0123456789_-./: " ++ s)

/-- A parsed reference, as produced by `name.ParseReference`: the
tagged-variant view of the type switch at root.go:119. -/
inductive Ref where
  | tag (s : String)
  | digest (s : String)

/-- Model of `name.ParseReference(url)` (root.go:113): a reference
containing `@` parses as a digest reference, anything else as a tag
reference.  On the one code path where it is invoked the repository part
of `url` has already been validated by `newRepository`, so the model is
total. -/
def parseReference (s : String) : Ref :=
  if s.data.contains '@' then Ref.digest s else Ref.tag s

/-- Go panic message for `strings.Split(url, ":")[1]` on a one-element
slice (root.go:84). -/
def outOfRange1Msg : String := "runtime error: index out of range [1] with length 1"

/-- Go panic message for `layers[0]` on an empty slice (root.go:166). -/
def outOfRange0Msg : String := "runtime error: index out of range [0] with length 0"

/-- Go panic message for dereferencing the nil descriptor returned by a
failed `remote.Get` (root.go:133). -/
def nilDerefMsg : String := "runtime error: invalid memory address or nil pointer dereference"

/-- The fatal message of the scheme check at root.go:79.  This failure is
the code's counterpart of the spec's `InvalidReferenceError`: it is the
one failure raised on malformed input before any network access. -/
def invalidRefMsg : String := "Image must be in the format oci://<domain>/<org>/<repo>"

/-- The type switch at root.go:119-139.  For a tag reference: try
`remote.Head`; on success the digest is the Head digest; otherwise fall
back to `remote.Get`.  When the Get also fails the code only logs at
error level (root.go:131) and then dereferences the nil Get descriptor
(root.go:133), a nil pointer panic — returned as the `error` case.  For
a digest reference the switch body is skipped: no call is made and
`revision` keeps its zero value.  On success returns the `revision`
string `tag@digest` and the events of this phase. -/
def resolveDigest (tag : String) (reg : Registry) (ref : Ref) :
    Except (Outcome × List Event) (String × List Event) :=
  match ref with
  | Ref.digest _ => Except.ok ("", [])
  | Ref.tag _ =>
    match reg.headRes with
    | Except.ok d => Except.ok (tag ++ "@" ++ d, [Event.headReq])
    | Except.error _ =>
      match reg.getRes with
      | Except.ok d => Except.ok (tag ++ "@" ++ d, [Event.headReq, Event.getManifest])
      | Except.error e =>
        Except.error (Outcome.panicked nilDerefMsg,
          [Event.headReq, Event.getManifest, Event.errorLog ("Error getting image: " ++ e)])

/-- The observability loop at root.go:152-164: each layer's metadata is
debug-logged; a layer whose `Digest()` call errors is reported through
`logger.Error` (with the source's mislabelled "media type" message) and
the loop continues.  Only the error-level lines are recorded. -/
def enumLogs : List Layer → List Event
  | [] => []
  | l :: ls =>
    (match l.digestRes with
     | Except.error e => [Event.errorLog ("Error getting media type: " ++ e)]
     | Except.ok _ => []) ++ enumLogs ls

/-- Extraction, root.go:141-193: `remote.Image` + `Layers()` (one
manifest fetch), the enumeration loop, `layer = layers[0]` (a panic on
an empty slice), `os.MkdirTemp`, `layer.Compressed()`,
`defer blob.Close()`, `io.ReadAll`, `os.WriteFile`.  Event lists are
written out per branch in source order.  `logger.Fatal` exits via
`os.Exit(1)`, which skips the deferred `blob.Close()`, so fatal branches
after the blob is opened record no `blobClose`.  The deferred
`os.RemoveAll(dir)` is commented out in the source (root.go:173), so no
directory-removal event exists at all.  Returns the outcome and the
events of this phase. -/
def extractPhase (reg : Registry) (fs : Fs) : Outcome × List Event :=
  match reg.imageRes with
  | Except.error e =>
    (Outcome.fatalExit ("Error getting image: " ++ e), [Event.imageManifest])
  | Except.ok img =>
    match img.layersRes with
    | Except.error e =>
      (Outcome.fatalExit ("Error getting layers: " ++ e), [Event.imageManifest])
    | Except.ok layers =>
      match layers with
      | [] =>
        (Outcome.panicked outOfRange0Msg, [Event.imageManifest])
      | l :: restLayers =>
        match fs.mkdirTempRes with
        | Except.error e =>
          (Outcome.fatalExit ("Error creating temp dir: " ++ e),
            Event.imageManifest :: enumLogs (l :: restLayers))
        | Except.ok dir =>
          match l.compressedRes with
          | Except.error e =>
            (Outcome.fatalExit ("Error getting compressed layer: " ++ e),
              Event.imageManifest :: (enumLogs (l :: restLayers) ++ [Event.mkdirTemp dir]))
          | Except.ok _ =>
            match l.readAllRes with
            | Except.error e =>
              (Outcome.fatalExit ("Error reading blob: " ++ e),
                Event.imageManifest :: (enumLogs (l :: restLayers) ++
                  [Event.mkdirTemp dir, Event.blobFetch]))
            | Except.ok data =>
              match fs.writeFileRes with
              | Except.error e =>
                (Outcome.fatalExit ("Error writing file: " ++ e),
                  Event.imageManifest :: (enumLogs (l :: restLayers) ++
                    [Event.mkdirTemp dir, Event.blobFetch]))
              | Except.ok _ =>
                (Outcome.ok (dir ++ "/layer.tar.gz"),
                  Event.imageManifest :: (enumLogs (l :: restLayers) ++
                    [Event.mkdirTemp dir, Event.blobFetch,
                     Event.writeFile (dir ++ "/layer.tar.gz") data, Event.blobClose]))

/-- root.go:105-193, the part of `getImage` that runs after `remote.List`
succeeded: default an empty tag to `latest` (root.go:105-107), parse the
reference (root.go:113), resolve the digest through the type switch, and
run extraction.  The returned tag list is only debug-logged
(root.go:109-111: a requested tag missing from the list does not alter
control flow), so it is not a parameter. -/
def afterList (url tag0 : String) (reg : Registry) (fs : Fs) : RunResult :=
  let tag := if tag0 = "" then "latest" else tag0
  match resolveDigest tag reg (parseReference url) with
  | Except.error oe =>
    { outcome := oe.1, events := oe.2, revision := "" }
  | Except.ok re =>
    { outcome := (extractPhase reg fs).1,
      events := re.2 ++ (extractPhase reg fs).2,
      revision := re.1 }

/-- `getImage` (root.go:74-193), statement by statement: the scheme
check (78-80, `logger.Fatal` on failure), `strings.TrimPrefix` (82),
`strings.Split(url, ":")[1]` (84) — an index-out-of-range panic when the
remainder contains no `:` —, `name.NewRepository` on `Split(url,":")[0]`
(91-94), `remote.List` (98-101), then `afterList`. -/
def getImage (ociImage : String) (reg : Registry) (fs : Fs) : RunResult :=
  if hasOciScheme ociImage = false then
    { outcome := Outcome.fatalExit invalidRefMsg, events := [], revision := "" }
  else
    let url := trimOci ociImage
    let parts := goSplit url ':'
    if h : parts.length < 2 then
      { outcome := Outcome.panicked outOfRange1Msg, events := [], revision := "" }
    else
      match newRepository (parts.get ⟨0, by omega⟩) with
      | Except.error e =>
        { outcome := Outcome.fatalExit ("Error parsing repository: " ++ e),
          events := [], revision := "" }
      | Except.ok _ =>
        match reg.listTagsRes with
        | Except.error e =>
          { outcome := Outcome.fatalExit ("Error listing tags: " ++ e),
            events := [Event.listTags], revision := "" }
        | Except.ok _tags =>
          let rest := afterList url (parts.get ⟨1, by omega⟩) reg fs
          { outcome := rest.outcome,
            events := Event.listTags :: rest.events,
            revision := rest.revision }

/-- The tag-less scenario input of the spec. -/
def refNoTag : String := "oci://reg.example.com/org/app"

/-- The tagged scenario input of the spec. -/
def refTagV1 : String := "oci://reg.example.com/org/app:v1"

/-- A digest-based reference. -/
def refDigest : String :=
  "oci://reg.example.com/org/app@sha256:aaaaaaaaaaaaaaaaaaaaaaaaaaaaaaaaaaaaaaaaaaaaaaaaaaaaaaaaaaaaaaaa"

/-- The malformed scenario input of the spec. -/
def refBad : String := "not-a-valid-ref"

/-- A layer whose every call succeeds. -/
def layerA : Layer :=
  { mediaType := "application/vnd.oci.image.layer.v1.tar+gzip"
    digestRes := Except.ok "sha256:bbb"
    size := 3
    compressedRes := Except.ok ()
    readAllRes := Except.ok [1, 2, 3] }

/-- A registry on which every call succeeds. -/
def regHappy : Registry :=
  { listTagsRes := Except.ok ["latest", "v1"]
    headRes := Except.ok "sha256:aaa"
    getRes := Except.ok "sha256:ccc"
    imageRes := Except.ok { layersRes := Except.ok [layerA] } }

/-- A filesystem on which every call succeeds. -/
def fsHappy : Fs :=
  { mkdirTempRes := Except.ok "/tmp/layer123"
    writeFileRes := Except.ok () }

/-- A registry whose manifest and Head calls succeed and whose single
layer opens but fails mid-read. -/
def regBlobFail : Registry :=
  { listTagsRes := Except.ok ["v1"]
    headRes := Except.ok "sha256:aaa"
    getRes := Except.ok "sha256:ccc"
    imageRes := Except.ok { layersRes := Except.ok [
      { mediaType := "application/vnd.oci.image.layer.v1.tar+gzip"
        digestRes := Except.ok "sha256:bbb"
        size := 3
        compressedRes := Except.ok ()
        readAllRes := Except.error "read: connection reset" }] } }

/-- Registry whose List, Head and Image calls succeed with the given
payloads (the manifest holding `layers`). -/
def regWithLayers (ts : List String) (d : String) (gr : Except String String)
    (layers : List Layer) : Registry :=
  { listTagsRes := Except.ok ts
    headRes := Except.ok d
    getRes := gr
    imageRes := Except.ok { layersRes := Except.ok layers } }

/-- Filesystem whose calls succeed, the temp dir being `dir`. -/
def fsOk (dir : String) : Fs :=
  { mkdirTempRes := Except.ok dir, writeFileRes := Except.ok () }

/-- A layer whose blob calls succeed with content `data`. -/
def mkLayer (mt : String) (dgr : Except String String) (sz : Nat) (data : List Nat) : Layer :=
  { mediaType := mt, digestRes := dgr, size := sz
    compressedRes := Except.ok (), readAllRes := Except.ok data }

/-- Splitting on a character that does not occur returns the whole list
as the single segment (the Go `strings.Split` behavior the crash at
root.go:84 depends on). -/
theorem goSplitList_not_mem (c : Char) (l : List Char) (h : c ∉ l) :
    goSplitList c l = [l] := by
  induction l with
  | nil => rfl
  | cons a rest ih =>
    have h1 : ¬ (a = c) := by
      intro hh
      exact h (by simp [hh])
    have h2 : c ∉ rest := by
      intro hh
      exact h (by simp [hh])
    simp [goSplitList, h1, ih h2]

/-- An input without the `oci://` scheme is rejected at the very first
statement of `getImage`: the run is the fatal invalid-format exit with an
empty event trace. -/
theorem noSchemeFatal (s : String) (reg : Registry) (fs : Fs)
    (h : hasOciScheme s = false) :
    getImage s reg fs
      = { outcome := Outcome.fatalExit invalidRefMsg, events := [], revision := "" } := by
  simp [getImage, h]

/-- The enumeration loop emits only error-log events, never a manifest
fallback fetch. -/
theorem getManifest_notin_enumLogs (ls : List Layer) :
    Event.getManifest ∉ enumLogs ls := by
  induction ls with
  | nil => simp [enumLogs]
  | cons l t ih => cases h : l.digestRes <;> simp [enumLogs, h, ih]

/-- The extraction phase never issues the tag-resolution fallback fetch
(`remote.Get`): its only network events are the manifest fetch and the
blob fetch. -/
theorem getManifest_not_in_extract (reg : Registry) (fs : Fs) :
    Event.getManifest ∉ (extractPhase reg fs).2 := by
  unfold extractPhase
  repeat' split
  all_goals simp [getManifest_notin_enumLogs]

/-- C1: claim — for an input whose remainder after stripping `oci://`
contains no `:`, resolution defaults the tag to `latest` and proceeds.
What the code actually does (root.go:84): `strings.Split(url, ":")[1]`
indexes a one-element slice and panics with an index-out-of-range
runtime error, before the `latest` default at root.go:105-107 can ever
run.  This theorem evaluates the embedded code on that whole input
class. -/
theorem c1_no_colon_panics (s : String) (reg : Registry) (fs : Fs)
    (h1 : hasOciScheme s = true) (h2 : ':' ∉ (trimOci s).data) :
    (getImage s reg fs).outcome = Outcome.panicked outOfRange1Msg := by
  have hsplit : goSplit (trimOci s) ':' = [trimOci s] := by
    unfold goSplit
    rw [goSplitList_not_mem ':' (trimOci s).data h2]
    rfl
  unfold getImage
  simp [h1, hsplit]

/-- C1 witness: the spec's own scenario input `oci://reg.example.com/org/app`
panics. -/
theorem c1_no_colon_panics_witness :
    (getImage refNoTag regHappy fsHappy).outcome = Outcome.panicked outOfRange1Msg :=
  c1_no_colon_panics refNoTag regHappy fsHappy (by decide) (by decide)

/-- C2: claim — when both the HEAD check and the fallback GET fail, the
code should fail with a typed `DigestResolutionError`.  What the code
actually does (root.go:129-133): it logs the GET failure at error level
(non-fatal) and then dereferences the nil descriptor returned by the
failed `remote.Get`, crashing with a nil-pointer runtime panic. -/
theorem c2_both_fail_nil_deref (ts : List String) (eh eg : String)
    (im : Except String RImage) (fs : Fs) :
    (getImage refTagV1 ⟨Except.ok ts, Except.error eh, Except.error eg, im⟩ fs).outcome
      = Outcome.panicked nilDerefMsg
    ∧ (getImage refTagV1 ⟨Except.ok ts, Except.error eh, Except.error eg, im⟩ fs).events
      = [Event.listTags, Event.headReq, Event.getManifest,
         Event.errorLog ("Error getting image: " ++ eg)] :=
  ⟨rfl, rfl⟩

/-- C3: claim — a zero-layer manifest should fail with a typed
`NoLayersError`.  What the code actually does (root.go:166): `layers[0]`
on the empty slice panics with an index-out-of-range runtime error.  The
second half of the claim does hold: the panic happens before
`os.MkdirTemp` (root.go:168), so no filesystem write is performed. -/
theorem c3_zero_layers_panics (ts : List String) (d : String)
    (gr : Except String String) (fs : Fs) :
    (getImage refTagV1 (regWithLayers ts d gr []) fs).outcome
      = Outcome.panicked outOfRange0Msg
    ∧ (getImage refTagV1 (regWithLayers ts d gr []) fs).events.filter
        (fun ev => ev.isFsWrite) = [] :=
  ⟨rfl, rfl⟩

/-- C4 counterexample: the claim says the core never terminates the
process itself.  On the spec's own malformed input the code calls
`logger.Fatal` (zap), which logs and then calls `os.Exit(1)`: the run's
outcome is process termination, not a typed failure surfaced to a
caller. -/
theorem c4_counterexample :
    (getImage refBad regHappy fsHappy).outcome.terminatesProcess = true := by decide

/-- C4 amended: the core terminates the process itself on failure.
Every run either succeeds or ends in process termination (a fatal log
followed by `os.Exit(1)`, or an unrecovered runtime panic) — the
embedding has no outcome through which a failure is surfaced to the
caller as a typed value; in particular an input lacking the `oci://`
scheme terminates the process with the invalid-format fatal message. -/
theorem c4_terminates_on_failure (img : String) (reg : Registry) (fs : Fs) :
    ((∃ p, (getImage img reg fs).outcome = Outcome.ok p)
      ∨ (getImage img reg fs).outcome.terminatesProcess = true)
    ∧ (hasOciScheme img = false →
        (getImage img reg fs).outcome = Outcome.fatalExit invalidRefMsg) := by
  constructor
  · cases ho : (getImage img reg fs).outcome with
    | ok p => exact Or.inl ⟨p, rfl⟩
    | fatalExit m => exact Or.inr rfl
    | panicked m => exact Or.inr rfl
  · intro h
    rw [noSchemeFatal img reg fs h]

/-- C4 witness: the amended claim applied to the scheme-less input. -/
theorem c4_terminates_on_failure_witness :
    (getImage refBad regHappy fsHappy).outcome = Outcome.fatalExit invalidRefMsg :=
  (c4_terminates_on_failure refBad regHappy fsHappy).2 (by decide)

/-- C5: for every input lacking the `oci://` scheme, the run fails with
the invalid-format fatal failure — the code's counterpart of the spec's
`InvalidReferenceError`, raised at root.go:78-80 — and performs zero
network calls (the event trace holds no registry call at all). -/
theorem c5_no_scheme_invalid_ref (s : String) (reg : Registry) (fs : Fs)
    (h : hasOciScheme s = false) :
    (getImage s reg fs).outcome = Outcome.fatalExit invalidRefMsg
    ∧ (getImage s reg fs).events.filter (fun ev => ev.isNetwork) = [] := by
  rw [noSchemeFatal s reg fs h]
  exact ⟨rfl, rfl⟩

/-- C5 witness: the spec's scenario input `not-a-valid-ref`. -/
theorem c5_no_scheme_invalid_ref_witness :
    (getImage refBad regHappy fsHappy).outcome = Outcome.fatalExit invalidRefMsg
    ∧ (getImage refBad regHappy fsHappy).events.filter (fun ev => ev.isNetwork) = [] :=
  c5_no_scheme_invalid_ref refBad regHappy fsHappy (by decide)

/-- C6: claim — a digest-based reference passes its digest through
unchanged with no HEAD or GET call.  What the code actually does
(root.go:91-94): `name.NewRepository(strings.Split(url, ":")[0])` is fed
`reg.example.com/org/app@sha256`, whose `@` fails repository-path
validation, so the run exits fatally before any registry call — the
digest never passes through at all (the type switch at root.go:119 that
would skip resolution for digest references is unreachable for them).
The event trace is empty, so no HEAD or GET is indeed ever issued. -/
theorem c6_digest_ref_fatal_parse (reg : Registry) (fs : Fs) :
    (getImage refDigest reg fs).outcome
      = Outcome.fatalExit ("Error parsing repository: repository can only contain the characters abcdefghijklmnopqrstuvwxyz0123456789_-./: reg.example.com/org/app@sha256")
    ∧ (getImage refDigest reg fs).events = [] :=
  ⟨rfl, rfl⟩

/-- C7: for a tag-based reference on which the lightweight HEAD check
succeeds with digest `d`, the resolved identifier is composed as
`tag@d` from the HEAD digest, and no manifest-fallback fetch
(`remote.Get`) is ever issued anywhere in the run. -/
theorem c7_head_digest_authoritative (ts : List String) (d : String)
    (gr : Except String String) (im : Except String RImage) (fs : Fs) :
    (getImage refTagV1 ⟨Except.ok ts, Except.ok d, gr, im⟩ fs).revision = "v1@" ++ d
    ∧ Event.getManifest ∉ (getImage refTagV1 ⟨Except.ok ts, Except.ok d, gr, im⟩ fs).events := by
  constructor
  · rfl
  · show Event.getManifest ∉
      Event.listTags :: Event.headReq ::
        (extractPhase ⟨Except.ok ts, Except.ok d, gr, im⟩ fs).2
    intro hmem
    simp only [List.mem_cons] at hmem
    rcases hmem with h | h | h
    · exact absurd h (by decide)
    · exact absurd h (by decide)
    · exact getManifest_not_in_extract ⟨Except.ok ts, Except.ok d, gr, im⟩ fs h

/-- C7 witness: a concrete happy-path run. -/
theorem c7_head_digest_authoritative_witness :
    (getImage refTagV1 ⟨Except.ok ["v1"], Except.ok "sha256:aaa", Except.ok "sha256:ccc",
        Except.ok { layersRes := Except.ok [layerA] }⟩ fsHappy).revision = "v1@" ++ "sha256:aaa"
    ∧ Event.getManifest ∉ (getImage refTagV1 ⟨Except.ok ["v1"], Except.ok "sha256:aaa",
        Except.ok "sha256:ccc", Except.ok { layersRes := Except.ok [layerA] }⟩ fsHappy).events :=
  c7_head_digest_authoritative ["v1"] "sha256:aaa" (Except.ok "sha256:ccc")
    (Except.ok { layersRes := Except.ok [layerA] }) fsHappy

/-- C8: for a manifest with at least one layer, extraction selects the
layer at index 0 in manifest order: the run succeeds and the bytes
written to `<dir>/layer.tar.gz` are the first layer's blob bytes,
whatever the media types of the first layer (`mt`) and of all the
remaining layers (`rest`) are. -/
theorem c8_selects_first_layer (mt : String) (dgr : Except String String) (sz : Nat)
    (data : List Nat) (rest : List Layer) (ts : List String) (d : String)
    (gr : Except String String) (dir : String) :
    (getImage refTagV1 (regWithLayers ts d gr (mkLayer mt dgr sz data :: rest))
        (fsOk dir)).outcome = Outcome.ok (dir ++ "/layer.tar.gz")
    ∧ Event.writeFile (dir ++ "/layer.tar.gz") data
        ∈ (getImage refTagV1 (regWithLayers ts d gr (mkLayer mt dgr sz data :: rest))
            (fsOk dir)).events := by
  refine ⟨rfl, ?_⟩
  show Event.writeFile (dir ++ "/layer.tar.gz") data ∈
    Event.listTags :: Event.headReq :: Event.imageManifest ::
      (enumLogs (mkLayer mt dgr sz data :: rest) ++
        [Event.mkdirTemp dir, Event.blobFetch,
         Event.writeFile (dir ++ "/layer.tar.gz") data, Event.blobClose])
  simp [List.mem_append]

/-- C9 counterexample: the claim says the open blob stream is closed on
every exit path.  On a run where `io.ReadAll` fails after the blob was
opened, `logger.Fatal` exits the process through `os.Exit(1)`, which
does not run the deferred `blob.Close()`: the trace opens the blob and
never closes it. -/
theorem c9_counterexample :
    Event.blobFetch ∈ (getImage refTagV1 regBlobFail fsHappy).events
    ∧ Event.blobClose ∉ (getImage refTagV1 regBlobFail fsHappy).events
    ∧ (getImage refTagV1 regBlobFail fsHappy).outcome.terminatesProcess = true := by
  have hev : (getImage refTagV1 regBlobFail fsHappy).events
      = [Event.listTags, Event.headReq, Event.imageManifest,
         Event.mkdirTemp "/tmp/layer123", Event.blobFetch] := rfl
  refine ⟨?_, ?_, rfl⟩ <;> rw [hev] <;> simp

/-- C9 amended: the blob stream is closed only on the successful exit
path (where the close is the last action of the run); on a fatal-error
exit path after the stream is opened — here a failed blob read — the
process exits without running the deferred close; and no removal of the
temporary directory exists on any path (the `defer os.RemoveAll` is
commented out at root.go:173), so the directory and its contents persist
across invocations. -/
theorem c9_blob_close_paths (ts : List String) (d dir e : String) (data : List Nat)
    (gr : Except String String) :
    (getImage refTagV1 (regWithLayers ts d gr
        [mkLayer "m" (Except.ok "sha256:ldig") 3 data]) (fsOk dir)).events.getLast?
      = some Event.blobClose
    ∧ Event.blobFetch ∈ (getImage refTagV1 (regWithLayers ts d gr
        [{ mediaType := "m", digestRes := Except.ok "sha256:ldig", size := 3,
           compressedRes := Except.ok (), readAllRes := Except.error e }]) (fsOk dir)).events
    ∧ Event.blobClose ∉ (getImage refTagV1 (regWithLayers ts d gr
        [{ mediaType := "m", digestRes := Except.ok "sha256:ldig", size := 3,
           compressedRes := Except.ok (), readAllRes := Except.error e }]) (fsOk dir)).events
    ∧ (getImage refTagV1 (regWithLayers ts d gr
        [{ mediaType := "m", digestRes := Except.ok "sha256:ldig", size := 3,
           compressedRes := Except.ok (), readAllRes := Except.error e }]) (fsOk dir)).outcome
      = Outcome.fatalExit ("Error reading blob: " ++ e) := by
  refine ⟨rfl, ?_, ?_, rfl⟩
  · show Event.blobFetch ∈
      [Event.listTags, Event.headReq, Event.imageManifest, Event.mkdirTemp dir, Event.blobFetch]
    simp
  · show Event.blobClose ∉
      [Event.listTags, Event.headReq, Event.imageManifest, Event.mkdirTemp dir, Event.blobFetch]
    simp

/-- C9 witness: the amended claim at concrete inputs. -/
theorem c9_blob_close_paths_witness :
    (getImage refTagV1 (regWithLayers ["v1"] "sha256:aaa" (Except.ok "sha256:ccc")
        [mkLayer "m" (Except.ok "sha256:ldig") 3 [1, 2, 3]]) (fsOk "/tmp/layer123")).events.getLast?
      = some Event.blobClose
    ∧ Event.blobFetch ∈ (getImage refTagV1 (regWithLayers ["v1"] "sha256:aaa" (Except.ok "sha256:ccc")
        [{ mediaType := "m", digestRes := Except.ok "sha256:ldig", size := 3,
           compressedRes := Except.ok (), readAllRes := Except.error "boom" }]) (fsOk "/tmp/layer123")).events
    ∧ Event.blobClose ∉ (getImage refTagV1 (regWithLayers ["v1"] "sha256:aaa" (Except.ok "sha256:ccc")
        [{ mediaType := "m", digestRes := Except.ok "sha256:ldig", size := 3,
           compressedRes := Except.ok (), readAllRes := Except.error "boom" }]) (fsOk "/tmp/layer123")).events
    ∧ (getImage refTagV1 (regWithLayers ["v1"] "sha256:aaa" (Except.ok "sha256:ccc")
        [{ mediaType := "m", digestRes := Except.ok "sha256:ldig", size := 3,
           compressedRes := Except.ok (), readAllRes := Except.error "boom" }]) (fsOk "/tmp/layer123")).outcome
      = Outcome.fatalExit ("Error reading blob: " ++ "boom") :=
  c9_blob_close_paths ["v1"] "sha256:aaa" "/tmp/layer123" "boom" [1, 2, 3] (Except.ok "sha256:ccc")

/-- C10 counterexample: the claim says every well-formed reference —
digest-based ones included — first triggers the tag-listing call.  A
digest-based reference aborts at repository parsing (root.go:91-94)
before `remote.List` is ever reached: its trace holds no listing call. -/
theorem c10_counterexample :
    Event.listTags ∉ (getImage refDigest regHappy fsHappy).events := by
  have hev : (getImage refDigest regHappy fsHappy).events = [] := rfl
  rw [hev]
  simp

/-- C10 amended: for a well-formed tag-based reference, the tag-listing
call is the first registry call of the run; a listing failure aborts the
whole operation fatally with no further calls; the content of the
returned tag list — including the requested tag being absent from it —
does not affect the run at all; and a digest-based reference never
reaches the listing call, aborting earlier at repository parsing with an
empty trace. -/
theorem c10_listing_gates_tag_runs (hd gt : Except String String)
    (im : Except String RImage) (fs : Fs) (e : String) (ts tsB : List String) :
    ((getImage refTagV1 ⟨Except.error e, hd, gt, im⟩ fs).outcome
        = Outcome.fatalExit ("Error listing tags: " ++ e)
      ∧ (getImage refTagV1 ⟨Except.error e, hd, gt, im⟩ fs).events = [Event.listTags])
    ∧ (getImage refTagV1 ⟨Except.ok ts, hd, gt, im⟩ fs).events.head? = some Event.listTags
    ∧ getImage refTagV1 ⟨Except.ok ts, hd, gt, im⟩ fs
        = getImage refTagV1 ⟨Except.ok tsB, hd, gt, im⟩ fs
    ∧ (getImage refDigest ⟨Except.ok ts, hd, gt, im⟩ fs).events = [] :=
  ⟨⟨rfl, rfl⟩, rfl, rfl, rfl⟩

end GoAcr
